import Mathlib

set_option maxRecDepth 8000

/-!
Verification of the call-stage state machine and issue-classification core of
the business-support hotline.

The repository contains two variants of the support service:

* `BusinessSupport` — the base `BusinessSupportService` (English prompts): every
  stage handler makes one remote language-model call; there is no keyword
  pre-filter and no input validation; the cleanup threshold is 1000.
* `SwissGerman` — the `SwissGermanBusinessSupportService`: keyword pre-filter
  (`quickClassify`), input validation (`validateInput`), locally generated
  reference numbers, cleanup threshold 500.

The webhook controller (`EnhancedSwissGermanCallController.handleGatherInput`)
applies a confidence gate, resolves the current stage and dispatches to the
base service's handlers; the stage-`initial` path races the classification
against an 8-second timeout via `Promise.race`.

Remote (OpenAI) calls are modelled by a `RemoteResult` parameter: `ok a` is a
response whose JSON parsed into the expected shape `a`, `malformed` is a
response whose body failed `JSON.parse`, and `err` is a thrown transport error.
JavaScript `Map`s are modelled as association lists; note that in the source
`conversations.get(sid)` returns a reference to the stored array, so a
`context.push(...)` before the remote call mutates the stored conversation
in place whenever an entry already exists — the embedding reproduces this.
-/

/-- Outcome of one remote language-model call, as seen by the caller after
`JSON.parse`. -/
inductive RemoteResult (α : Type) where
  | ok (a : α)
  | malformed
  | err
deriving DecidableEq

/-- One role-tagged conversation turn. -/
structure Msg where
  role : String
  content : String
deriving DecidableEq

/-- The mutable per-call record kept in `collectedData` (all fields optional,
as on a plain JS object). -/
structure CaseData where
  detailedMessage : Option String := none
  timestamp : Option String := none
  businessAddress : Option String := none
  referenceNumber : Option String := none
  status : Option String := none
  estimatedResponse : Option String := none
  callbackTime : Option String := none
deriving DecidableEq

/-- The four service-level `Map`s (JS `Map` ≈ association list with distinct
keys; `size` is the number of entries). -/
structure Store where
  conversations : List (String × List Msg)
  urgentCases : List (String × CaseData)
  callStages : List (String × String)
  collectedData : List (String × CaseData)
deriving DecidableEq

def emptyStore : Store := ⟨[], [], [], []⟩

/-- `Map.get` — first binding of the key, if any. -/
def mGet {α : Type} (m : List (String × α)) (k : String) : Option α :=
  match m with
  | [] => none
  | (k', v) :: rest => if k = k' then some v else mGet rest k

/-- `Map.set` — update in place, or append a new binding. -/
def mSet {α : Type} (m : List (String × α)) (k : String) (v : α) :
    List (String × α) :=
  match m with
  | [] => [(k, v)]
  | (k', v') :: rest =>
      if k' = k then (k, v) :: rest else (k', v') :: mSet rest k v

/-! ### JavaScript string primitives used by the source -/

/-- `String.prototype.toLowerCase` restricted to the characters occurring in
the source's keyword/noise sets (ASCII letters plus the Swiss German umlauts).
-/
def jsToLower (c : Char) : Char :=
  if 'A' ≤ c ∧ c ≤ 'Z' then Char.ofNat (c.toNat + 32)
  else if c = 'Ä' then 'ä'
  else if c = 'Ö' then 'ö'
  else if c = 'Ü' then 'ü'
  else c

def lowerChars (s : String) : List Char := s.toList.map jsToLower

/-- `String.prototype.trim` (drop leading and trailing whitespace). -/
def trimChars (s : String) : List Char :=
  ((s.toList.dropWhile Char.isWhitespace).reverse.dropWhile
    Char.isWhitespace).reverse

/-- Contiguous-substring test on character lists. -/
def subList : List Char → List Char → Bool
  | needle, [] => needle.isEmpty
  | needle, c :: rest => needle.isPrefixOf (c :: rest) || subList needle rest

/-- `a.includes(b)` — substring test. -/
def includesSub (hay : List Char) (needle : String) : Bool :=
  subList needle.toList hay

/-- Matcher for an anchored one-or-more alternation `^(t₁|t₂|…)+$`, as used by
the source's noise regexes; `fuel` bounds the recursion by the input length. -/
def repMatchAux (tokens : List String) (fuel : Nat) (cs : List Char) : Bool :=
  match fuel with
  | 0 => false
  | fuel' + 1 =>
      tokens.any fun tk =>
        !tk.toList.isEmpty && tk.toList.isPrefixOf cs &&
          (let rest := cs.drop tk.toList.length
           rest.isEmpty || repMatchAux tokens fuel' rest)

def repMatch (tokens : List String) (cs : List Char) : Bool :=
  !cs.isEmpty && repMatchAux tokens cs.length cs

namespace SwissGerman

/-- The fixed urgent-indicating keyword set. -/
def urgentKeywords : List String :=
  ["kaputt", "funktioniert nöd", "geit nöd", "abgsturzt", "faled", "error",
   "problem", "chan nöd zuegreife", "date verlore", "sicherheitsproblem",
   "hack", "zahlig", "rechnig", "server", "datenbank", "system", "websiite",
   "sofort", "dringend", "schnäll", "jetzt", "hiuf", "notfall"]

/-- The fixed non-urgent-indicating keyword set. -/
def nonUrgentKeywords : List String :=
  ["frag", "wie", "chönd", "schulig", "lerne", "feature", "aafrag",
   "iistellige", "konto", "plan", "upgrade", "termin", "meetig",
   "informatione", "dokumentation", "aaleitig", "tutorial"]

/-- Number of urgent keywords contained in the lower-cased transcript. -/
def urgentScore (t : String) : Nat :=
  urgentKeywords.countP (fun k => includesSub (lowerChars t) k)

/-- Number of non-urgent keywords contained in the lower-cased transcript. -/
def nonUrgentScore (t : String) : Nat :=
  nonUrgentKeywords.countP (fun k => includesSub (lowerChars t) k)

/-- `quickClassify`: keyword pre-filter; `"analyze_needed"` means the counts
are tied (including 0–0) and the remote model must decide. -/
def quickClassify (t : String) : String :=
  if urgentScore t > nonUrgentScore t ∧ urgentScore t > 0 then "urgent"
  else if nonUrgentScore t > urgentScore t ∧ nonUrgentScore t > 0 then
    "not_urgent"
  else "analyze_needed"

/-- The three noise regexes `^(äh|öh|em|ja)+$`, `^(hoi|grüezi|tschau)+$`,
`^(ja|nei|okay|ok)+$` (case-insensitive, applied to the trimmed transcript). -/
def isNoise (t : String) : Bool :=
  let cs := (trimChars t).map jsToLower
  repMatch ["äh", "öh", "em", "ja"] cs ||
  repMatch ["hoi", "grüezi", "tschau"] cs ||
  repMatch ["ja", "nei", "okay", "ok"] cs

/-- `validateInput`: reject empty / shorter than 3 trimmed characters, longer
than 500 raw characters, or noise-only transcripts. -/
def validateInput (t : String) : Bool :=
  if t = "" || (trimChars t).length < 3 then false
  else if t.toList.length > 500 then false
  else !isNoise t

/-- The JSON object expected from the Swiss German classification prompt. -/
structure SGAnalysis where
  urgency : String
  confidence : Rat
  response : String
deriving DecidableEq

/-- The analysis object this service hands to the controller. -/
structure SGResp where
  urgency : String
  confidence : Rat
  suggestedResponse : String
  requiresAddress : Bool
deriving DecidableEq

/-- `getQuickResponse`: set the stage from the verdict and return a canned
acknowledgment. -/
def getQuickResponse (urgency : String) (callSid : String) (st : Store) :
    SGResp × Store :=
  let st' := { st with
    callStages := mSet st.callStages callSid
      (if urgency = "urgent" then "urgent_details" else "non_urgent_callback") }
  if urgency = "urgent" then
    (⟨"urgent", mkRat 8 10,
      "Ich verstaa, das isch dringend. Gäbed mer alli Details, demit ich euch sofort cha hälfe.",
      true⟩, st')
  else
    (⟨"not_urgent", mkRat 8 10,
      "Ich verstaa euri Aafrag. Öises Team wird sich bi euch mälde für di bescht Hilf.",
      false⟩, st')

/-- `getFallbackResponse('unclear')` — the reply to an invalid transcript. -/
def unclearResponse : SGResp :=
  ⟨"not_urgent", mkRat 3 10,
   "Ich wott sicher si, dass ich eui Problem richtig verstaa. Chönd der mir das Problem i es paar Wörter erkläre?",
   false⟩

/-- `formatAnalysisResponse` (the `||` defaults mirror JS falsiness: an empty
response string and a zero confidence are replaced). -/
def formatAnalysisResponse (a : SGAnalysis) : SGResp :=
  ⟨a.urgency,
   if a.confidence = 0 then mkRat 8 10 else a.confidence,
   if a.response = "" then
     (if a.urgency = "urgent" then
        "Ich verstaa, das isch dringend. Gäbed mer di Details."
      else "Öises Team wird sich mälde.")
   else a.response,
   a.urgency = "urgent"⟩

/-- Result of `analyzeIssue`: the returned analysis, the store after the call,
and whether the remote model was invoked. -/
structure SGOut where
  analysis : SGResp
  st : Store
  remoteCalled : Bool
deriving DecidableEq

/-- `SwissGermanBusinessSupportService.analyzeIssue`: validation, then the
keyword pre-filter, then (only on a tie) the remote call.  In the remote
branch the user turn is pushed onto the conversation array before the call;
when an entry already exists the push mutates the stored array in place, so
it survives even the catch path. -/
def analyzeIssue (t callSid : String) (remote : RemoteResult SGAnalysis)
    (st : Store) : SGOut :=
  if !validateInput t then ⟨unclearResponse, st, false⟩
  else if quickClassify t ≠ "analyze_needed" then
    let (resp, st') := getQuickResponse (quickClassify t) callSid st
    ⟨resp, st', false⟩
  else
    let old := mGet st.conversations callSid
    let ctx := old.getD [] ++ [⟨"user", t⟩]
    let st1 :=
      if old.isSome then
        { st with conversations := mSet st.conversations callSid ctx }
      else st
    match remote with
    | .ok a =>
        let st2 := { st1 with
          callStages := mSet st1.callStages callSid
            (if a.urgency = "urgent" then "urgent_details"
             else "non_urgent_callback") }
        let st3 := { st2 with
          conversations := mSet st2.conversations callSid
            (ctx ++ [⟨"assistant", a.response⟩]) }
        ⟨formatAnalysisResponse a, st3, true⟩
    | _ =>
        -- catch: quickClassify is a tie here, so the fallback verdict is
        -- 'urgent'
        let (resp, st') := getQuickResponse "urgent" callSid st1
        ⟨resp, st', true⟩

/-- Reply shape of the Swiss German `handleUrgentDetails`. -/
structure SGUrgResp where
  response : String
  nextStage : String
deriving DecidableEq

/-- `SwissGermanBusinessSupportService.handleUrgentDetails`: no remote call;
an invalid transcript asks for clarification and leaves the store alone; a
valid one stores `detailedMessage` + timestamp and advances the stage. -/
def handleUrgentDetails (t callSid now : String) (st : Store) :
    SGUrgResp × Store :=
  if !validateInput t then
    (⟨"Ich bruche meh Details über das dringend Problem. Chönd der mir erkläre was genau nöd funktioniert?",
      "urgent_details"⟩, st)
  else
    let cur := (mGet st.collectedData callSid).getD {}
    let cur' := { cur with detailedMessage := some t, timestamp := some now }
    let st' := { st with
      collectedData := mSet st.collectedData callSid cur',
      callStages := mSet st.callStages callSid "collect_address" }
    (⟨"Ich han alli Details über eui dringend Problem. Jetzt bruche ich eui Geschäfts-Adrässe, demit öis Team euch sofort cha hälfe.",
      "collect_address"⟩, st')

/-- `getCallStage` (Swiss German variant) — stage lookup, default `initial`. -/
def getCallStage (st : Store) (callSid : String) : String :=
  (mGet st.callStages callSid).getD "initial"

end SwissGerman

namespace BusinessSupport

/-- The JSON object the base `analyzeIssue` prompt requests. -/
structure Analysis where
  urgency : String
  issueType : String
  confidence : Rat
  suggestedResponse : String
  requiresAddress : Bool
  reasoning : String
deriving DecidableEq

/-- The `catch` fallback of the base `analyzeIssue`. -/
def fallbackAnalysis : Analysis :=
  ⟨"urgent", "system_down", mkRat 1 10,
   "I understand you have an urgent issue. Let me get your details to help you immediately.",
   true, "Fallback - treating as urgent to be safe"⟩

/-- Result of the base `analyzeIssue` (the remote model is always invoked). -/
structure AnalyzeOut where
  analysis : Analysis
  st : Store
deriving DecidableEq

/-- The user turn is pushed before the remote call; when a conversation entry
already exists the push mutates the stored array in place (JS reference
semantics), so it persists even when the call throws. -/
def pushUserTurn (t callSid : String) (st : Store) : Store :=
  if (mGet st.conversations callSid).isSome then
    let pushed := (mGet st.conversations callSid).getD [] ++ [⟨"user", t⟩]
    { st with conversations := mSet st.conversations callSid pushed }
  else st

/-- The conversation including the pushed user turn. -/
def ctxAfterUser (t callSid : String) (st : Store) : List Msg :=
  (mGet st.conversations callSid).getD [] ++ [⟨"user", t⟩]

/-- `BusinessSupportService.analyzeIssue` (base variant): one unconditional
remote call; on success the stage is set from the verdict and the two turns
are stored; on a throw or a `JSON.parse` failure the fallback analysis is
returned and neither the stage map nor `collectedData` is touched. -/
def analyzeIssue (t callSid : String) (remote : RemoteResult Analysis)
    (st : Store) : AnalyzeOut :=
  let ctx := ctxAfterUser t callSid st
  let st1 := pushUserTurn t callSid st
  match remote with
  | .ok a =>
      let a' := { a with requiresAddress := a.urgency = "urgent" }
      let st2 := { st1 with
        callStages := mSet st1.callStages callSid
          (if a.urgency = "urgent" then "urgent_details"
           else "non_urgent_callback") }
      let st3 := { st2 with
        conversations := mSet st2.conversations callSid
          (ctx ++ [⟨"assistant", a'.suggestedResponse⟩]) }
      ⟨a', st3⟩
  | _ => ⟨fallbackAnalysis, st1⟩

/-- JSON shape requested by the base `handleUrgentDetails` prompt. -/
structure UrgHandling where
  response : String
  nextStage : String
  messageComplete : Bool
deriving DecidableEq

/-- `BusinessSupportService.handleUrgentDetails` (base variant): no input
validation; on success it stores `detailedMessage` + timestamp and sets the
stage to `collect_address`; on failure it returns the fallback object without
touching the stage or the collected data. -/
def handleUrgentDetails (t callSid now : String)
    (remote : RemoteResult UrgHandling) (st : Store) : UrgHandling × Store :=
  let ctx := ctxAfterUser t callSid st
  let st1 := pushUserTurn t callSid st
  match remote with
  | .ok h =>
      let cur := (mGet st.collectedData callSid).getD {}
      let cur' := { cur with detailedMessage := some t, timestamp := some now }
      let st2 := { st1 with
        collectedData := mSet st1.collectedData callSid cur',
        callStages := mSet st1.callStages callSid "collect_address" }
      let st3 := { st2 with
        conversations := mSet st2.conversations callSid
          (ctx ++ [⟨"assistant", h.response⟩]) }
      (h, st3)
  | _ =>
      (⟨"I have noted your urgent issue details. Now I need your business address so our team can assist you immediately.",
        "collect_address", true⟩, st1)

/-- JSON shape requested by the base `collectAddress` prompt; the reference
number is whatever string the model produced. -/
structure AddrHandling where
  response : String
  referenceNumber : String
  addressReceived : Bool
  estimatedResponse : String
  caseComplete : Bool
deriving DecidableEq

/-- `BusinessSupportService.collectAddress` (base variant): on success the
model's own `referenceNumber` is stored and returned verbatim; the catch path
returns the fixed `UBG-123456` object without touching the store (except the
in-place context push). -/
def collectAddress (t callSid : String) (remote : RemoteResult AddrHandling)
    (st : Store) : AddrHandling × Store :=
  let ctx := ctxAfterUser t callSid st
  let st1 := pushUserTurn t callSid st
  match remote with
  | .ok a =>
      let cur := (mGet st.collectedData callSid).getD {}
      let cur' := { cur with
        businessAddress := some t,
        referenceNumber := some a.referenceNumber,
        status := some "urgent_escalated",
        estimatedResponse := some a.estimatedResponse }
      let st2 := { st1 with
        collectedData := mSet st1.collectedData callSid cur',
        urgentCases := mSet st1.urgentCases callSid cur',
        callStages := mSet st1.callStages callSid "urgent_complete" }
      let st3 := { st2 with
        conversations := mSet st2.conversations callSid
          (ctx ++ [⟨"assistant", a.response⟩]) }
      (a, st3)
  | _ =>
      (⟨"Thank you for the address. Your urgent case UBG-123456 has been escalated and our team will contact you within 30 minutes.",
        "UBG-123456", true, "within 30 minutes", true⟩, st1)

/-- JSON shape requested by the base `handleNonUrgentCallback` prompt. -/
structure CallbackHandling where
  response : String
  needsCallbackTime : Bool
  nextStage : String
deriving DecidableEq

/-- `BusinessSupportService.handleNonUrgentCallback` (base variant). -/
def handleNonUrgentCallback (t callSid : String)
    (remote : RemoteResult CallbackHandling) (st : Store) :
    CallbackHandling × Store :=
  let ctx := ctxAfterUser t callSid st
  let st1 := pushUserTurn t callSid st
  match remote with
  | .ok h =>
      let st2 := { st1 with
        callStages := mSet st1.callStages callSid "schedule_callback" }
      let st3 := { st2 with
        conversations := mSet st2.conversations callSid
          (ctx ++ [⟨"assistant", h.response⟩]) }
      (h, st3)
  | _ =>
      (⟨"I understand your inquiry. Our team will reach out to you. What would be a good time for us to call you back?",
        true, "schedule_callback"⟩, st1)

/-- JSON shape requested by the base `scheduleCallback` prompt. -/
structure SchedHandling where
  response : String
  callbackTime : String
  referenceNumber : String
  callbackScheduled : Bool
deriving DecidableEq

/-- `BusinessSupportService.scheduleCallback` (base variant): the model's
`referenceNumber` is stored and returned verbatim on success; the catch path
returns the fixed `CBK-123456` object without touching the store. -/
def scheduleCallback (t callSid now : String)
    (remote : RemoteResult SchedHandling) (st : Store) :
    SchedHandling × Store :=
  let ctx := ctxAfterUser t callSid st
  let st1 := pushUserTurn t callSid st
  match remote with
  | .ok s =>
      let cur := (mGet st.collectedData callSid).getD {}
      let cur' := { cur with
        callbackTime := some t,
        referenceNumber := some s.referenceNumber,
        status := some "callback_scheduled",
        timestamp := some now }
      let st2 := { st1 with
        collectedData := mSet st1.collectedData callSid cur',
        callStages := mSet st1.callStages callSid "callback_complete" }
      let st3 := { st2 with
        conversations := mSet st2.conversations callSid
          (ctx ++ [⟨"assistant", s.response⟩]) }
      (s, st3)
  | _ =>
      (⟨"Perfect! Our team will call you back at that time. Your reference number is CBK-123456.",
        t, "CBK-123456", true⟩, st1)

/-- `getCallStage` — stage lookup with default `initial`. -/
def getCallStage (st : Store) (callSid : String) : String :=
  (mGet st.callStages callSid).getD "initial"

/-- `getUrgentCases` — the urgent-case registry's values. -/
def getUrgentCases (st : Store) : List CaseData :=
  st.urgentCases.map Prod.snd

/-- `getScheduledCallbacks` — collected records with callback status. -/
def getScheduledCallbacks (st : Store) : List CaseData :=
  (st.collectedData.map Prod.snd).filter
    (fun d => d.status == some "callback_scheduled")

/-- `cleanup` — bulk clear of conversations and stages once the conversation
map exceeds 1000 entries; the other two maps are never cleared. -/
def cleanup (st : Store) : Store :=
  if 1000 < st.conversations.length then
    { st with conversations := [], callStages := [] }
  else st

end BusinessSupport

/-! ### The webhook controller (`EnhancedSwissGermanCallController`) -/

/-- What kind of TwiML turn the controller produced: the low-quality
clarification re-prompt, the default-branch closing utterance, or a normal
handler-driven turn. -/
inductive TurnKind where
  | reprompt
  | closing
  | answered
deriving DecidableEq

/-- Result of one `handleGatherInput` webhook event. -/
structure GatherOut where
  kind : TurnKind
  st : Store
  remoteCalled : Bool
deriving DecidableEq

/-- The controller's quality gate:
`confidence < 0.4 || !speechResult || speechResult.trim().length < 3`. -/
def lowQuality (conf : Rat) (t : String) : Bool :=
  decide (conf < mkRat 4 10) || decide (t = "") ||
    decide ((trimChars t).length < 3)

/-- `handleInitialIssueWithVoice` races `analyzeIssue` against an 8000 ms
timer.  `remoteTime` is the wall time the remote call takes.  When the
timeout wins, the controller's catch produces the no-AI fallback turn: no
analysis object exists and only `analyzeIssue`'s synchronous prelude (the
in-place user-turn push) has happened yet. -/
def handleInitialIssue (remoteTime : Nat)
    (remote : RemoteResult BusinessSupport.Analysis) (t callSid : String)
    (st : Store) : Option BusinessSupport.Analysis × Store :=
  if remoteTime ≤ 8000 then
    let o := BusinessSupport.analyzeIssue t callSid remote st
    (some o.analysis, o.st)
  else (none, BusinessSupport.pushUserTurn t callSid st)

/-- `Promise.race` does not cancel the losing `analyzeIssue` promise: it keeps
running and applies its store mutations when the remote call eventually
settles.  This is the store once that happens (for any `remoteTime`). -/
def initialFinalStore (t callSid : String)
    (remote : RemoteResult BusinessSupport.Analysis) (st : Store) : Store :=
  (BusinessSupport.analyzeIssue t callSid remote st).st

/-- `handleGatherInput`: quality gate, then stage dispatch into the base
service's handlers; stages outside the five dispatched ones (including the
two terminal stages) fall to the closing default branch. -/
def handleGatherInput (conf : Rat) (t callSid now : String) (remoteTime : Nat)
    (rA : RemoteResult BusinessSupport.Analysis)
    (rU : RemoteResult BusinessSupport.UrgHandling)
    (rAd : RemoteResult BusinessSupport.AddrHandling)
    (rN : RemoteResult BusinessSupport.CallbackHandling)
    (rS : RemoteResult BusinessSupport.SchedHandling)
    (st : Store) : GatherOut :=
  if lowQuality conf t then ⟨.reprompt, st, false⟩
  else
    let s := BusinessSupport.getCallStage st callSid
    if s = "initial" then
      ⟨.answered, (handleInitialIssue remoteTime rA t callSid st).2, true⟩
    else if s = "urgent_details" then
      ⟨.answered, (BusinessSupport.handleUrgentDetails t callSid now rU st).2,
       true⟩
    else if s = "collect_address" then
      ⟨.answered, (BusinessSupport.collectAddress t callSid rAd st).2, true⟩
    else if s = "non_urgent_callback" then
      ⟨.answered, (BusinessSupport.handleNonUrgentCallback t callSid rN st).2,
       true⟩
    else if s = "schedule_callback" then
      ⟨.answered, (BusinessSupport.scheduleCallback t callSid now rS st).2,
       true⟩
    else ⟨.closing, st, false⟩

/-- The forward edges of the call-stage state machine (spec §4.2). -/
def stageEdge (a b : String) : Bool :=
  (a = "initial" && (b = "urgent_details" || b = "non_urgent_callback")) ||
  (a = "urgent_details" && b = "collect_address") ||
  (a = "collect_address" && b = "urgent_complete") ||
  (a = "non_urgent_callback" && b = "schedule_callback") ||
  (a = "schedule_callback" && b = "callback_complete")

/-- `UBG-` followed by exactly six decimal digits. -/
def isUBG (s : String) : Bool :=
  match s.toList with
  | 'U' :: 'B' :: 'G' :: '-' :: ds => ds.length = 6 && ds.all Char.isDigit
  | _ => false

/-- `CBK-` followed by exactly six decimal digits. -/
def isCBK (s : String) : Bool :=
  match s.toList with
  | 'C' :: 'B' :: 'K' :: '-' :: ds => ds.length = 6 && ds.all Char.isDigit
  | _ => false

/-- The five stage values `handleGatherInput` dispatches on; every other
stage value falls to the closing default branch. -/
def dispatchedStages : List String :=
  ["initial", "urgent_details", "collect_address", "non_urgent_callback",
   "schedule_callback"]

/-! ### Concrete fixtures used when settling the claims -/

/-- A transcript dominated by the urgent keyword set (it contains `server`
and no non-urgent keyword) whose raw length of 501 characters exceeds the
500-character validation bound. -/
def longUrgentTranscript : String :=
  "server" ++ String.mk (List.replicate 495 ' ')

/-- A session sitting in stage `urgent_details`. -/
def c5Store : Store :=
  { emptyStore with callStages := [("c5", "urgent_details")] }

/-- A store with an existing conversation context for call `c9`. -/
def c9Store : Store :=
  { emptyStore with conversations := [("c9", [⟨"user", "hallo"⟩])] }

/-- A successfully parsed urgent classification payload. -/
def urgentAnalysis : BusinessSupport.Analysis :=
  ⟨"urgent", "system_down", mkRat 9 10, "Verstande, das isch dringend.", true,
   "website down"⟩

/-- A successfully parsed non-urgent classification payload. -/
def nonUrgentAnalysis : BusinessSupport.Analysis :=
  ⟨"not_urgent", "general_question", mkRat 9 10, "Öis Team mäldet sich.",
   false, "general question"⟩

/-- A session that later events have advanced to `schedule_callback` — the
store on which a timed-out first classification's late completion lands. -/
def c2Store : Store :=
  { emptyStore with callStages := [("c2", "schedule_callback")] }

/-- A session already in the terminal stage `urgent_complete`, with a
collected record. -/
def c8Store : Store :=
  { emptyStore with
    callStages := [("c8", "urgent_complete")],
    collectedData := [("c8", { businessAddress := some "Bahnhofstrasse 1" })] }

/-- A store whose conversation map has crossed the 1000-entry high-water
mark, with a stage, a collected record and an urgent case present. -/
def bigStore : Store :=
  { emptyStore with
    conversations := (List.range 1001).map (fun i => (toString i, [])),
    callStages := [("c10", "urgent_details")],
    collectedData := [("c10", { status := some "callback_scheduled" })],
    urgentCases := [("c10", { referenceNumber := some "UBG-111111" })] }

/-! ### General lemmas about the embedding -/

theorem mGet_mSet_self {α : Type} (m : List (String × α)) (k : String)
    (v : α) : mGet (mSet m k v) k = some v := by
  induction m with
  | nil => simp [mGet, mSet]
  | cons hd tl ih =>
      obtain ⟨k', v'⟩ := hd
      by_cases h : k' = k
      · simp [mGet, mSet, h]
      · simp only [mSet, if_neg h, mGet]
        rw [if_neg (fun hk => h hk.symm)]
        exact ih

theorem mGet_mSet_ne {α : Type} (m : List (String × α)) (k k' : String)
    (v : α) (h : k' ≠ k) : mGet (mSet m k v) k' = mGet m k' := by
  induction m with
  | nil => simp [mGet, mSet, h]
  | cons hd tl ih =>
      obtain ⟨k₀, v₀⟩ := hd
      by_cases h₀ : k₀ = k
      · subst h₀
        simp [mGet, mSet, h]
      · simp only [mSet, if_neg h₀, mGet]
        by_cases h₁ : k' = k₀
        · simp [h₁]
        · simp [h₁, ih]

theorem pushUserTurn_callStages (t callSid : String) (st : Store) :
    (BusinessSupport.pushUserTurn t callSid st).callStages = st.callStages := by
  unfold BusinessSupport.pushUserTurn
  split <;> rfl

theorem pushUserTurn_collectedData (t callSid : String) (st : Store) :
    (BusinessSupport.pushUserTurn t callSid st).collectedData =
      st.collectedData := by
  unfold BusinessSupport.pushUserTurn
  split <;> rfl

theorem pushUserTurn_urgentCases (t callSid : String) (st : Store) :
    (BusinessSupport.pushUserTurn t callSid st).urgentCases =
      st.urgentCases := by
  unfold BusinessSupport.pushUserTurn
  split <;> rfl

theorem quickClassify_of_urgent_gt (t : String)
    (h : SwissGerman.nonUrgentScore t < SwissGerman.urgentScore t) :
    SwissGerman.quickClassify t = "urgent" := by
  unfold SwissGerman.quickClassify
  rw [if_pos ⟨h, Nat.lt_of_le_of_lt (Nat.zero_le _) h⟩]

theorem quickClassify_of_nonUrgent_gt (t : String)
    (h : SwissGerman.urgentScore t < SwissGerman.nonUrgentScore t) :
    SwissGerman.quickClassify t = "not_urgent" := by
  unfold SwissGerman.quickClassify
  rw [if_neg, if_pos ⟨h, Nat.lt_of_le_of_lt (Nat.zero_le _) h⟩]
  rintro ⟨h', -⟩
  exact Nat.lt_asymm h h'

/-! ### Claim C6 — low-quality speech events are gated -/

/-- Claim C6: for every inbound speech event whose recognition confidence is
below 0.4 or whose (trimmed) transcript has fewer than 3 characters, the
controller re-prompts and performs no stage dispatch: the store is unchanged
and no remote classification is invoked. -/
theorem c6_low_quality_no_dispatch (conf : Rat) (t callSid now : String)
    (rt : Nat) (rA : RemoteResult BusinessSupport.Analysis)
    (rU : RemoteResult BusinessSupport.UrgHandling)
    (rAd : RemoteResult BusinessSupport.AddrHandling)
    (rN : RemoteResult BusinessSupport.CallbackHandling)
    (rS : RemoteResult BusinessSupport.SchedHandling) (st : Store)
    (h : conf < mkRat 4 10 ∨ (trimChars t).length < 3) :
    handleGatherInput conf t callSid now rt rA rU rAd rN rS st =
      ⟨.reprompt, st, false⟩ := by
  have hq : lowQuality conf t = true := by
    simp only [lowQuality, Bool.or_eq_true, decide_eq_true_eq]
    rcases h with h | h
    · exact Or.inl (Or.inl h)
    · exact Or.inr h
  simp [handleGatherInput, hq]

/-- Claim C6 witness: the spec's own example — confidence 0.2 and transcript
"yes" at an empty store produce the re-prompt with nothing touched. -/
theorem c6_low_quality_no_dispatch_witness :
    handleGatherInput (mkRat 2 10) "yes" "c6" "now" 0 .err .err .err .err .err
      emptyStore = ⟨.reprompt, emptyStore, false⟩ :=
  c6_low_quality_no_dispatch (mkRat 2 10) "yes" "c6" "now" 0 .err .err .err
    .err .err emptyStore (Or.inl (by decide))

/-! ### Claim C8 — terminal and unknown stages -/

/-- Claim C8: a further speech event on a session whose stage is outside the
five dispatched stages (in particular `urgent_complete`, `callback_complete`,
or any unknown value) leaves the entire store — `collectedFields` included —
unchanged, and (whenever it passes the quality gate) produces the closing
response. -/
theorem c8_terminal_stage_frame (conf : Rat) (t callSid now : String)
    (rt : Nat) (rA : RemoteResult BusinessSupport.Analysis)
    (rU : RemoteResult BusinessSupport.UrgHandling)
    (rAd : RemoteResult BusinessSupport.AddrHandling)
    (rN : RemoteResult BusinessSupport.CallbackHandling)
    (rS : RemoteResult BusinessSupport.SchedHandling) (st : Store)
    (h : BusinessSupport.getCallStage st callSid ∉ dispatchedStages) :
    (handleGatherInput conf t callSid now rt rA rU rAd rN rS st).st = st ∧
    (lowQuality conf t = false →
      (handleGatherInput conf t callSid now rt rA rU rAd rN rS st).kind =
        .closing) := by
  simp only [dispatchedStages, List.mem_cons, List.not_mem_nil, or_false,
    not_or] at h
  obtain ⟨h1, h2, h3, h4, h5⟩ := h
  by_cases hq : lowQuality conf t = true
  · refine ⟨by simp [handleGatherInput, hq], fun hf => ?_⟩
    rw [hq] at hf
    cases hf
  · simp only [Bool.not_eq_true] at hq
    simp only [handleGatherInput, hq, Bool.false_eq_true, if_false, h1, h2,
      h3, h4, h5, if_neg]
    exact ⟨trivial, fun _ => trivial⟩

/-- Claim C8 witness: a gate-passing event on a session in terminal stage
`urgent_complete` leaves the store (collected fields included) unchanged and
produces the closing response. -/
theorem c8_terminal_stage_frame_witness :
    (handleGatherInput (mkRat 9 10) "isch na öppis offe" "c8" "now" 0 .err
      .err .err .err .err c8Store).st = c8Store ∧
    (handleGatherInput (mkRat 9 10) "isch na öppis offe" "c8" "now" 0 .err
      .err .err .err .err c8Store).kind = .closing := by
  have h := c8_terminal_stage_frame (mkRat 9 10) "isch na öppis offe" "c8"
    "now" 0 .err .err .err .err .err c8Store (by decide)
  exact ⟨h.1, h.2 (by decide)⟩

/-! ### Claim C10 — cleanup clears only conversations and stages -/

/-- Claim C10: `cleanup` fires only when the conversation map holds more than
1000 entries; it then clears exactly the conversation and stage maps —
`collectedData` and the urgent-case registry survive — and every call's stage
reads as `initial` afterwards. -/
theorem c10_cleanup_scope (st : Store) :
    (st.conversations.length ≤ 1000 → BusinessSupport.cleanup st = st) ∧
    (1000 < st.conversations.length →
      (BusinessSupport.cleanup st).conversations = [] ∧
      (BusinessSupport.cleanup st).callStages = [] ∧
      (BusinessSupport.cleanup st).collectedData = st.collectedData ∧
      (BusinessSupport.cleanup st).urgentCases = st.urgentCases ∧
      ∀ callSid, BusinessSupport.getCallStage (BusinessSupport.cleanup st)
        callSid = "initial") := by
  constructor
  · intro h
    unfold BusinessSupport.cleanup
    rw [if_neg (Nat.not_lt.mpr h)]
  · intro h
    unfold BusinessSupport.cleanup
    rw [if_pos h]
    exact ⟨rfl, rfl, rfl, rfl, fun callSid => rfl⟩

/-- Claim C10 witness: the empty store is below the high-water mark and is
untouched; a store with 1001 conversations is swept, keeping its collected
record and urgent case while its stage resets to `initial`. -/
theorem c10_cleanup_scope_witness :
    BusinessSupport.cleanup emptyStore = emptyStore ∧
    (BusinessSupport.cleanup bigStore).conversations = [] ∧
    (BusinessSupport.cleanup bigStore).collectedData = bigStore.collectedData ∧
    (BusinessSupport.cleanup bigStore).urgentCases = bigStore.urgentCases ∧
    BusinessSupport.getCallStage (BusinessSupport.cleanup bigStore) "c10" =
      "initial" := by
  have hsmall := (c10_cleanup_scope emptyStore).1 (by decide)
  have hbig := (c10_cleanup_scope bigStore).2
    (by simp [bigStore, emptyStore])
  exact ⟨hsmall, hbig.1, hbig.2.2.1, hbig.2.2.2.1, hbig.2.2.2.2 "c10"⟩

/-! ### Claim C4 — reference-number format -/

/-- Claim C4 counterexample: on the success path the base `collectAddress`
returns the remote model's `referenceNumber` verbatim — here the parsed JSON
carries `"XYZ"`, which the handler returns even though it does not match
`UBG-` + 6 digits. -/
theorem c4_reference_format_counterexample :
    (BusinessSupport.collectAddress "Bahnhofstrasse 1, Zürich" "c4"
      (.ok ⟨"Adrässe notiert.", "XYZ", true, "within 30 minutes", true⟩)
      emptyStore).1.referenceNumber = "XYZ" ∧
    isUBG "XYZ" = false := by
  exact ⟨rfl, rfl⟩

/-- Claim C4 (amended): on the internal-failure fallback path,
`collectAddress` always returns `UBG-123456` and `scheduleCallback` always
returns `CBK-123456` — each of the shape prefix + exactly 6 decimal digits —
while on the success path each handler returns the remote model's
`referenceNumber` verbatim, unvalidated. -/
theorem c4_reference_format (t callSid now : String) (st : Store)
    (a : BusinessSupport.AddrHandling) (s : BusinessSupport.SchedHandling) :
    isUBG (BusinessSupport.collectAddress t callSid .err st).1.referenceNumber
      = true ∧
    isUBG (BusinessSupport.collectAddress t callSid .malformed
      st).1.referenceNumber = true ∧
    isCBK (BusinessSupport.scheduleCallback t callSid now .err
      st).1.referenceNumber = true ∧
    isCBK (BusinessSupport.scheduleCallback t callSid now .malformed
      st).1.referenceNumber = true ∧
    (BusinessSupport.collectAddress t callSid (.ok a) st).1.referenceNumber =
      a.referenceNumber ∧
    (BusinessSupport.scheduleCallback t callSid now (.ok s)
      st).1.referenceNumber = s.referenceNumber :=
  ⟨rfl, rfl, rfl, rfl, rfl, rfl⟩

/-! ### Claim C9 — handler failure leaves the store alone -/

/-- Claim C9 counterexample: the claim says a failing handler leaves *every*
session-store map unchanged, but the user turn is pushed onto the
conversation array *before* the remote call, through the live reference
returned by `conversations.get` — so with an existing context the
conversations map observably changes even on the failure path. -/
theorem c9_handler_failure_frame_counterexample :
    (BusinessSupport.handleUrgentDetails "de server brännt" "c9" "now" .err
      c9Store).2.conversations ≠ c9Store.conversations ∧
    (BusinessSupport.handleUrgentDetails "de server brännt" "c9" "now" .err
      c9Store).2.conversations =
      [("c9", [⟨"user", "hallo"⟩, ⟨"user", "de server brännt"⟩])] :=
  ⟨by decide, by decide⟩

/-- Claim C9 (amended): when the remote call fails inside any of the four
stage handlers, the handler's fallback leaves the stage map, `collectedData`
and the urgent-case registry unchanged — in particular `getUrgentCases()` is
unchanged, so a fallback reference number is never registered — though an
already-existing conversation context still receives the in-place push of the
caller's turn. -/
theorem c9_handler_failure_frame (t callSid now : String) (st : Store) :
    ((BusinessSupport.handleUrgentDetails t callSid now .err
        st).2.callStages = st.callStages ∧
     (BusinessSupport.handleUrgentDetails t callSid now .err
        st).2.collectedData = st.collectedData ∧
     (BusinessSupport.handleUrgentDetails t callSid now .err
        st).2.urgentCases = st.urgentCases) ∧
    ((BusinessSupport.collectAddress t callSid .err st).2.callStages =
        st.callStages ∧
     (BusinessSupport.collectAddress t callSid .err st).2.collectedData =
        st.collectedData ∧
     (BusinessSupport.collectAddress t callSid .err st).2.urgentCases =
        st.urgentCases ∧
     BusinessSupport.getUrgentCases
        (BusinessSupport.collectAddress t callSid .err st).2 =
        BusinessSupport.getUrgentCases st ∧
     (BusinessSupport.collectAddress t callSid .malformed st).2.urgentCases =
        st.urgentCases ∧
     BusinessSupport.getUrgentCases
        (BusinessSupport.collectAddress t callSid .malformed st).2 =
        BusinessSupport.getUrgentCases st) ∧
    ((BusinessSupport.handleNonUrgentCallback t callSid .err
        st).2.callStages = st.callStages ∧
     (BusinessSupport.handleNonUrgentCallback t callSid .err
        st).2.collectedData = st.collectedData) ∧
    ((BusinessSupport.scheduleCallback t callSid now .err st).2.callStages =
        st.callStages ∧
     (BusinessSupport.scheduleCallback t callSid now .err
        st).2.collectedData = st.collectedData ∧
     (BusinessSupport.scheduleCallback t callSid now .err st).2.urgentCases =
        st.urgentCases) :=
  ⟨⟨pushUserTurn_callStages t callSid st,
    pushUserTurn_collectedData t callSid st,
    pushUserTurn_urgentCases t callSid st⟩,
   ⟨pushUserTurn_callStages t callSid st,
    pushUserTurn_collectedData t callSid st,
    pushUserTurn_urgentCases t callSid st,
    congrArg (fun l => l.map Prod.snd) (pushUserTurn_urgentCases t callSid st),
    pushUserTurn_urgentCases t callSid st,
    congrArg (fun l => l.map Prod.snd)
      (pushUserTurn_urgentCases t callSid st)⟩,
   ⟨pushUserTurn_callStages t callSid st,
    pushUserTurn_collectedData t callSid st⟩,
   ⟨pushUserTurn_callStages t callSid st,
    pushUserTurn_collectedData t callSid st,
    pushUserTurn_urgentCases t callSid st⟩⟩

/-! ### Claim C5 — the urgent_details handler -/

/-- Claim C5 counterexample: the base service's `handleUrgentDetails`
performs no input validation — the two-character transcript `"ab"` fails the
claim's validation rules, yet with a successful remote call the stage still
advances from `urgent_details` to `collect_address` instead of staying put. -/
theorem c5_urgent_details_counterexample :
    (trimChars "ab").length < 3 ∧
    BusinessSupport.getCallStage c5Store "c5" = "urgent_details" ∧
    BusinessSupport.getCallStage
      (BusinessSupport.handleUrgentDetails "ab" "c5" "now"
        (.ok ⟨"Danke, verstande.", "collect_address", true⟩) c5Store).2 "c5" =
      "collect_address" :=
  ⟨by decide, by decide, by decide⟩

/-- Claim C5 (amended): the claim holds of the Swiss German service's
`handleUrgentDetails` (which is the handler with validation): on a session in
stage `urgent_details`, a transcript passing validation is stored as
`detailedMessage` together with the timestamp and the stage always advances
to `collect_address`; a transcript failing validation (empty, shorter than 3
characters, longer than 500, or noise-only) leaves the store — and thus the
stage — unchanged and asks for clarification.  (The base service's handler
has no validation and advances whenever the remote call succeeds.) -/
theorem c5_urgent_details_sg (t callSid now : String) (st : Store)
    (hstage : SwissGerman.getCallStage st callSid = "urgent_details") :
    (SwissGerman.validateInput t = true →
      mGet (SwissGerman.handleUrgentDetails t callSid now st).2.collectedData
          callSid =
        some { (mGet st.collectedData callSid).getD {} with
          detailedMessage := some t, timestamp := some now } ∧
      SwissGerman.getCallStage
        (SwissGerman.handleUrgentDetails t callSid now st).2 callSid =
        "collect_address") ∧
    (SwissGerman.validateInput t = false →
      (SwissGerman.handleUrgentDetails t callSid now st).2 = st ∧
      SwissGerman.getCallStage
        (SwissGerman.handleUrgentDetails t callSid now st).2 callSid =
        "urgent_details" ∧
      (SwissGerman.handleUrgentDetails t callSid now st).1.nextStage =
        "urgent_details") := by
  constructor
  · intro hv
    unfold SwissGerman.handleUrgentDetails
    rw [hv]
    simp only [Bool.not_true, Bool.false_eq_true, if_false]
    constructor
    · exact mGet_mSet_self _ _ _
    · unfold SwissGerman.getCallStage
      simp [mGet_mSet_self]
  · intro hv
    unfold SwissGerman.handleUrgentDetails
    rw [hv]
    simp only [Bool.not_false, if_true]
    exact ⟨trivial, hstage, trivial⟩

/-- Claim C5 witness: with session `c5` in stage `urgent_details`, the valid
transcript stores the message and advances the stage, while the noise
transcript `"ja"` leaves the stage at `urgent_details` and asks again. -/
theorem c5_urgent_details_sg_witness :
    SwissGerman.validateInput "d Websiite isch komplett kaputt" = true ∧
    SwissGerman.getCallStage
      (SwissGerman.handleUrgentDetails "d Websiite isch komplett kaputt" "c5"
        "now" c5Store).2 "c5" = "collect_address" ∧
    SwissGerman.validateInput "ja" = false ∧
    SwissGerman.getCallStage
      (SwissGerman.handleUrgentDetails "ja" "c5" "now" c5Store).2 "c5" =
      "urgent_details" := by
  refine ⟨by decide, ?_, by decide, ?_⟩
  · exact ((c5_urgent_details_sg "d Websiite isch komplett kaputt" "c5" "now"
      c5Store (by decide)).1 (by decide)).2
  · exact ((c5_urgent_details_sg "ja" "c5" "now" c5Store
      (by decide)).2 (by decide)).2.1

/-! ### Claim C3 — remote-failure fallback of the initial classification -/

/-- Claim C3 counterexample: when the remote call loses the 8-second race, no
analysis object is produced at all — the controller's catch issues the no-AI
fallback prompt — so classification does not "return urgency=urgent with low
confidence" in the timeout case (the stage also stays `initial`). -/
theorem c3_remote_failure_counterexample :
    8000 < 9000 ∧
    (handleInitialIssue 9000 (.ok urgentAnalysis) "t3" "c3" emptyStore).1 =
      none ∧
    BusinessSupport.getCallStage
      (handleInitialIssue 9000 (.ok urgentAnalysis) "t3" "c3" emptyStore).2
      "c3" = "initial" :=
  ⟨by decide, by decide, by decide⟩

/-- Claim C3 (amended): when the remote call throws or returns
malformed/missing JSON, `analyzeIssue` returns the fixed fallback analysis —
urgency `urgent` with confidence 0.1, below the 0.4 threshold — and the stage
map is untouched (the error neither propagates nor closes the issue); when
instead the 8-second race times out, the controller catches the rejection and
re-prompts with no urgency verdict at all, again leaving the stage map
untouched. -/
theorem c3_remote_failure_urgent_fallback (t callSid : String) (st : Store)
    (rt : Nat) (a : BusinessSupport.Analysis) :
    ((BusinessSupport.analyzeIssue t callSid .err st).analysis =
        BusinessSupport.fallbackAnalysis ∧
     (BusinessSupport.analyzeIssue t callSid .err st).st.callStages =
        st.callStages) ∧
    ((BusinessSupport.analyzeIssue t callSid .malformed st).analysis =
        BusinessSupport.fallbackAnalysis ∧
     (BusinessSupport.analyzeIssue t callSid .malformed st).st.callStages =
        st.callStages) ∧
    BusinessSupport.fallbackAnalysis.urgency = "urgent" ∧
    BusinessSupport.fallbackAnalysis.confidence = mkRat 1 10 ∧
    BusinessSupport.fallbackAnalysis.confidence < mkRat 4 10 ∧
    (8000 < rt →
      (handleInitialIssue rt (.ok a) t callSid st).1 = none ∧
      (handleInitialIssue rt (.ok a) t callSid st).2.callStages =
        st.callStages) := by
  refine ⟨⟨rfl, pushUserTurn_callStages t callSid st⟩,
    ⟨rfl, pushUserTurn_callStages t callSid st⟩, rfl, rfl, by decide,
    fun hrt => ?_⟩
  unfold handleInitialIssue
  rw [if_neg (Nat.not_le.mpr hrt)]
  exact ⟨rfl, pushUserTurn_callStages t callSid st⟩

/-- Claim C3 witness: a thrown remote call yields the urgent low-confidence
fallback, and a 9-second remote call (past the 8-second bound) yields no
verdict. -/
theorem c3_remote_failure_urgent_fallback_witness :
    (BusinessSupport.analyzeIssue "website crashed" "w3" .err
      emptyStore).analysis.urgency = "urgent" ∧
    (BusinessSupport.analyzeIssue "website crashed" "w3" .err
      emptyStore).analysis.confidence < mkRat 4 10 ∧
    (handleInitialIssue 9000 (.ok urgentAnalysis) "website crashed" "w3"
      emptyStore).1 = none := by
  have h := c3_remote_failure_urgent_fallback "website crashed" "w3"
    emptyStore 9000 urgentAnalysis
  refine ⟨?_, ?_, (h.2.2.2.2.2 (by decide)).1⟩
  · rw [h.1.1]
    exact h.2.2.1
  · rw [h.1.1]
    exact h.2.2.2.2.1

/-! ### Claim C7 — the race discards only the value, not the effects -/

/-- Claim C7 counterexample: after a timed-out race (9 s remote) the webhook
turn leaves the stage at `initial`, but the still-running `analyzeIssue`
promise later applies its mutations — the stage map for that very call id
becomes `urgent_details` — so a timed-out classification does subsequently
mutate the session store. -/
theorem c7_race_counterexample :
    8000 < 9000 ∧
    BusinessSupport.getCallStage
      (handleInitialIssue 9000 (.ok urgentAnalysis) "t7" "c7" emptyStore).2
      "c7" = "initial" ∧
    BusinessSupport.getCallStage
      (initialFinalStore "t7" "c7" (.ok urgentAnalysis) emptyStore) "c7" =
      "urgent_details" :=
  ⟨by decide, by decide, by decide⟩

/-- Claim C7 (amended): the race discards only the returned value — past the
8-second bound the controller's turn carries no analysis — but the losing
`analyzeIssue` promise is not cancelled: when the remote call eventually
succeeds its stage write still lands (an urgent verdict sets the stage to
`urgent_details`).  `collectedData` and the urgent-case registry are never
touched by a late `analyzeIssue`. -/
theorem c7_race_effects_retained (t callSid : String) (rt : Nat)
    (remote : RemoteResult BusinessSupport.Analysis) (st : Store)
    (a : BusinessSupport.Analysis) (hrt : 8000 < rt) :
    (handleInitialIssue rt remote t callSid st).1 = none ∧
    (initialFinalStore t callSid remote st).collectedData =
      st.collectedData ∧
    (initialFinalStore t callSid remote st).urgentCases = st.urgentCases ∧
    (remote = .ok a → a.urgency = "urgent" →
      BusinessSupport.getCallStage (initialFinalStore t callSid remote st)
        callSid = "urgent_details") := by
  refine ⟨?_, ?_, ?_, ?_⟩
  · unfold handleInitialIssue
    rw [if_neg (Nat.not_le.mpr hrt)]
  · cases remote <;>
      simp [initialFinalStore, BusinessSupport.analyzeIssue,
        pushUserTurn_collectedData]
  · cases remote <;>
      simp [initialFinalStore, BusinessSupport.analyzeIssue,
        pushUserTurn_urgentCases]
  · intro hr hu
    subst hr
    simp [initialFinalStore, BusinessSupport.analyzeIssue, hu,
      BusinessSupport.getCallStage, mGet_mSet_self]

/-- Claim C7 witness: concrete instance of the amended statement — a 9-second
urgent classification produces no verdict for the turn, yet its late
completion sets the stage of that call to `urgent_details`. -/
theorem c7_race_effects_retained_witness :
    (handleInitialIssue 9000 (.ok urgentAnalysis) "w7" "cw7" emptyStore).1 =
      none ∧
    BusinessSupport.getCallStage
      (initialFinalStore "w7" "cw7" (.ok urgentAnalysis) emptyStore) "cw7" =
      "urgent_details" := by
  have h := c7_race_effects_retained "w7" "cw7" 9000 (.ok urgentAnalysis)
    emptyStore urgentAnalysis (by decide)
  exact ⟨h.1, h.2.2.2 rfl (by decide)⟩

/-! ### Claim C2 — the stage sequence is a walk along the graph -/

/-- Claim C2 counterexample: the walk invariant over the whole call history
is broken by the uncancelled race.  Interleaving traced in the source: the
first event's classification times out at 9 s (the webhook turn carries no
verdict and leaves the stage alone); later events then advance the call to
`schedule_callback`; when the orphaned remote call finally resolves urgent,
the still-running `analyzeIssue` executes `callStages.set(sid,
'urgent_details')` on the live map — a `schedule_callback → urgent_details`
transition, which is not an edge of the graph and regresses the stage
without any cleanup involved. -/
theorem c2_stage_walk_counterexample :
    8000 < 9000 ∧
    (handleInitialIssue 9000 (.ok urgentAnalysis) "de server isch kaputt"
      "c2" emptyStore).1 = none ∧
    BusinessSupport.getCallStage c2Store "c2" = "schedule_callback" ∧
    BusinessSupport.getCallStage
      (initialFinalStore "de server isch kaputt" "c2" (.ok urgentAnalysis)
        c2Store) "c2" = "urgent_details" ∧
    stageEdge "schedule_callback" "urgent_details" = false :=
  ⟨by decide, by decide, by decide, by decide, by decide⟩

theorem stage_after_initial (rt : Nat) (t callSid : String)
    (rA : RemoteResult BusinessSupport.Analysis) (st : Store) :
    BusinessSupport.getCallStage (handleInitialIssue rt rA t callSid st).2
        callSid = "urgent_details" ∨
    BusinessSupport.getCallStage (handleInitialIssue rt rA t callSid st).2
        callSid = "non_urgent_callback" ∨
    BusinessSupport.getCallStage (handleInitialIssue rt rA t callSid st).2
        callSid = BusinessSupport.getCallStage st callSid := by
  unfold handleInitialIssue
  by_cases hrt : rt ≤ 8000
  · rw [if_pos hrt]
    cases rA with
    | ok a =>
        by_cases hu : a.urgency = "urgent"
        · left
          simp [BusinessSupport.analyzeIssue, hu, BusinessSupport.getCallStage,
            mGet_mSet_self]
        · right; left
          simp [BusinessSupport.analyzeIssue, hu, BusinessSupport.getCallStage,
            mGet_mSet_self]
    | malformed =>
        right; right
        simp [BusinessSupport.analyzeIssue, BusinessSupport.getCallStage,
          pushUserTurn_callStages]
    | err =>
        right; right
        simp [BusinessSupport.analyzeIssue, BusinessSupport.getCallStage,
          pushUserTurn_callStages]
  · rw [if_neg hrt]
    right; right
    simp [BusinessSupport.getCallStage, pushUserTurn_callStages]

theorem stage_after_urgentDetails (t callSid now : String)
    (rU : RemoteResult BusinessSupport.UrgHandling) (st : Store) :
    BusinessSupport.getCallStage
        (BusinessSupport.handleUrgentDetails t callSid now rU st).2 callSid =
      "collect_address" ∨
    BusinessSupport.getCallStage
        (BusinessSupport.handleUrgentDetails t callSid now rU st).2 callSid =
      BusinessSupport.getCallStage st callSid := by
  cases rU with
  | ok h =>
      left
      simp [BusinessSupport.handleUrgentDetails, BusinessSupport.getCallStage,
        mGet_mSet_self, pushUserTurn_callStages]
  | malformed =>
      right
      simp [BusinessSupport.handleUrgentDetails, BusinessSupport.getCallStage,
        pushUserTurn_callStages]
  | err =>
      right
      simp [BusinessSupport.handleUrgentDetails, BusinessSupport.getCallStage,
        pushUserTurn_callStages]

theorem stage_after_collectAddress (t callSid : String)
    (rAd : RemoteResult BusinessSupport.AddrHandling) (st : Store) :
    BusinessSupport.getCallStage
        (BusinessSupport.collectAddress t callSid rAd st).2 callSid =
      "urgent_complete" ∨
    BusinessSupport.getCallStage
        (BusinessSupport.collectAddress t callSid rAd st).2 callSid =
      BusinessSupport.getCallStage st callSid := by
  cases rAd with
  | ok a =>
      left
      simp [BusinessSupport.collectAddress, BusinessSupport.getCallStage,
        mGet_mSet_self, pushUserTurn_callStages]
  | malformed =>
      right
      simp [BusinessSupport.collectAddress, BusinessSupport.getCallStage,
        pushUserTurn_callStages]
  | err =>
      right
      simp [BusinessSupport.collectAddress, BusinessSupport.getCallStage,
        pushUserTurn_callStages]

theorem stage_after_nonUrgent (t callSid : String)
    (rN : RemoteResult BusinessSupport.CallbackHandling) (st : Store) :
    BusinessSupport.getCallStage
        (BusinessSupport.handleNonUrgentCallback t callSid rN st).2 callSid =
      "schedule_callback" ∨
    BusinessSupport.getCallStage
        (BusinessSupport.handleNonUrgentCallback t callSid rN st).2 callSid =
      BusinessSupport.getCallStage st callSid := by
  cases rN with
  | ok h =>
      left
      simp [BusinessSupport.handleNonUrgentCallback,
        BusinessSupport.getCallStage, mGet_mSet_self, pushUserTurn_callStages]
  | malformed =>
      right
      simp [BusinessSupport.handleNonUrgentCallback,
        BusinessSupport.getCallStage, pushUserTurn_callStages]
  | err =>
      right
      simp [BusinessSupport.handleNonUrgentCallback,
        BusinessSupport.getCallStage, pushUserTurn_callStages]

theorem stage_after_schedule (t callSid now : String)
    (rS : RemoteResult BusinessSupport.SchedHandling) (st : Store) :
    BusinessSupport.getCallStage
        (BusinessSupport.scheduleCallback t callSid now rS st).2 callSid =
      "callback_complete" ∨
    BusinessSupport.getCallStage
        (BusinessSupport.scheduleCallback t callSid now rS st).2 callSid =
      BusinessSupport.getCallStage st callSid := by
  cases rS with
  | ok s =>
      left
      simp [BusinessSupport.scheduleCallback, BusinessSupport.getCallStage,
        mGet_mSet_self, pushUserTurn_callStages]
  | malformed =>
      right
      simp [BusinessSupport.scheduleCallback, BusinessSupport.getCallStage,
        pushUserTurn_callStages]
  | err =>
      right
      simp [BusinessSupport.scheduleCallback, BusinessSupport.getCallStage,
        pushUserTurn_callStages]

/-- Claim C2 (amended): for every inbound speech event, the *synchronous*
dispatch either leaves the stage of the dispatched call unchanged or moves it
along one edge of the state-machine graph
(`initial → urgent_details | non_urgent_callback`,
`urgent_details → collect_address`, `collect_address → urgent_complete`,
`non_urgent_callback → schedule_callback`,
`schedule_callback → callback_complete`).  This per-event walk invariant is
the most the code guarantees: the uncancelled 8-second race lets a timed-out
classification's late stage write regress the stage (see the counterexample
above), so the unqualified claim over the whole call history is false. -/
theorem c2_stage_walk (conf : Rat) (t callSid now : String) (rt : Nat)
    (rA : RemoteResult BusinessSupport.Analysis)
    (rU : RemoteResult BusinessSupport.UrgHandling)
    (rAd : RemoteResult BusinessSupport.AddrHandling)
    (rN : RemoteResult BusinessSupport.CallbackHandling)
    (rS : RemoteResult BusinessSupport.SchedHandling) (st : Store) :
    BusinessSupport.getCallStage
        (handleGatherInput conf t callSid now rt rA rU rAd rN rS st).st
        callSid =
      BusinessSupport.getCallStage st callSid ∨
    stageEdge (BusinessSupport.getCallStage st callSid)
      (BusinessSupport.getCallStage
        (handleGatherInput conf t callSid now rt rA rU rAd rN rS st).st
        callSid) = true := by
  by_cases hq : lowQuality conf t = true
  · left
    simp [handleGatherInput, hq]
  · simp only [Bool.not_eq_true] at hq
    simp only [handleGatherInput, hq, Bool.false_eq_true, if_false]
    by_cases h1 : BusinessSupport.getCallStage st callSid = "initial"
    · rw [if_pos h1]
      simp only
      rcases stage_after_initial rt t callSid rA st with h | h | h
      · right
        rw [h1, h]
        rfl
      · right
        rw [h1, h]
        rfl
      · left
        exact h
    · rw [if_neg h1]
      by_cases h2 : BusinessSupport.getCallStage st callSid = "urgent_details"
      · rw [if_pos h2]
        simp only
        rcases stage_after_urgentDetails t callSid now rU st with h | h
        · right
          rw [h2, h]
          rfl
        · left
          exact h
      · rw [if_neg h2]
        by_cases h3 :
            BusinessSupport.getCallStage st callSid = "collect_address"
        · rw [if_pos h3]
          simp only
          rcases stage_after_collectAddress t callSid rAd st with h | h
          · right
            rw [h3, h]
            rfl
          · left
            exact h
        · rw [if_neg h3]
          by_cases h4 :
              BusinessSupport.getCallStage st callSid = "non_urgent_callback"
          · rw [if_pos h4]
            simp only
            rcases stage_after_nonUrgent t callSid rN st with h | h
            · right
              rw [h4, h]
              rfl
            · left
              exact h
          · rw [if_neg h4]
            by_cases h5 :
                BusinessSupport.getCallStage st callSid = "schedule_callback"
            · rw [if_pos h5]
              simp only
              rcases stage_after_schedule t callSid now rS st with h | h
              · right
                rw [h5, h]
                rfl
              · left
                exact h
            · rw [if_neg h5]
              left
              rfl

/-! ### Claim C1 — the keyword pre-filter -/

/-- Claim C1 counterexample: `longUrgentTranscript` matches only the urgent
keyword set (urgent score 1, non-urgent score 0), yet because its raw length
of 501 characters fails input validation — which runs *before* the keyword
pre-filter — `analyzeIssue` returns the `not_urgent` clarification fallback
instead of the urgent verdict, whatever the remote oracle would say. -/
theorem c1_keyword_prefilter_counterexample :
    SwissGerman.nonUrgentScore longUrgentTranscript <
      SwissGerman.urgentScore longUrgentTranscript ∧
    0 < SwissGerman.urgentScore longUrgentTranscript ∧
    (SwissGerman.analyzeIssue longUrgentTranscript "c1" .err
      emptyStore).analysis.urgency = "not_urgent" ∧
    (SwissGerman.analyzeIssue longUrgentTranscript "c1"
      (.ok ⟨"urgent", mkRat 9 10, "Sofort-Hilf chunt."⟩)
      emptyStore).analysis.urgency = "not_urgent" ∧
    (SwissGerman.analyzeIssue longUrgentTranscript "c1" .err
      emptyStore).remoteCalled = false :=
  ⟨by decide, by decide, by decide, by decide, by decide⟩

/-- Claim C1 (amended): for every transcript that *passes input validation*,
whenever one keyword set's match count strictly exceeds the other's (which
makes it nonzero), the Swiss German `analyzeIssue` returns that verdict
immediately with the corresponding canned acknowledgment and never invokes
the remote model.  (The base `BusinessSupportService.analyzeIssue` has no
keyword pre-filter at all and always attempts the remote call.) -/
theorem c1_keyword_prefilter (t callSid : String)
    (remote : RemoteResult SwissGerman.SGAnalysis) (st : Store)
    (hv : SwissGerman.validateInput t = true) :
    (SwissGerman.nonUrgentScore t < SwissGerman.urgentScore t →
      (SwissGerman.analyzeIssue t callSid remote st).analysis.urgency =
        "urgent" ∧
      (SwissGerman.analyzeIssue t callSid remote
          st).analysis.suggestedResponse =
        "Ich verstaa, das isch dringend. Gäbed mer alli Details, demit ich euch sofort cha hälfe." ∧
      (SwissGerman.analyzeIssue t callSid remote st).remoteCalled = false) ∧
    (SwissGerman.urgentScore t < SwissGerman.nonUrgentScore t →
      (SwissGerman.analyzeIssue t callSid remote st).analysis.urgency =
        "not_urgent" ∧
      (SwissGerman.analyzeIssue t callSid remote
          st).analysis.suggestedResponse =
        "Ich verstaa euri Aafrag. Öises Team wird sich bi euch mälde für di bescht Hilf." ∧
      (SwissGerman.analyzeIssue t callSid remote st).remoteCalled = false) := by
  constructor
  · intro h
    have hqc := quickClassify_of_urgent_gt t h
    simp [SwissGerman.analyzeIssue, hv, hqc, SwissGerman.getQuickResponse]
  · intro h
    have hqc := quickClassify_of_nonUrgent_gt t h
    simp [SwissGerman.analyzeIssue, hv, hqc, SwissGerman.getQuickResponse]

/-- Claim C1 witness: the validated transcript "server kaputt" matches two
urgent keywords and no non-urgent one; `analyzeIssue` returns `urgent` with
the canned acknowledgment and no remote call. -/
theorem c1_keyword_prefilter_witness :
    SwissGerman.validateInput "server kaputt" = true ∧
    SwissGerman.nonUrgentScore "server kaputt" <
      SwissGerman.urgentScore "server kaputt" ∧
    (SwissGerman.analyzeIssue "server kaputt" "w1" .err
      emptyStore).analysis.urgency = "urgent" ∧
    (SwissGerman.analyzeIssue "server kaputt" "w1" .err
      emptyStore).remoteCalled = false := by
  refine ⟨by decide, by decide, ?_, ?_⟩
  · exact ((c1_keyword_prefilter "server kaputt" "w1" .err emptyStore
      (by decide)).1 (by decide)).1
  · exact ((c1_keyword_prefilter "server kaputt" "w1" .err emptyStore
      (by decide)).1 (by decide)).2.2
